import Mathlib

/-!
# WebWindow.Windows.cpp: window-chrome logic

A shallow embedding of the window-procedure logic of
`src/WebWindow.Native/WebWindow.Windows.cpp`: the borderless-window helpers
(`maximized`, `adjust_maximized_client_rect`, `composition_enabled`,
`select_borderless_style`, `set_shadow`, `hit_test`), the message switch of
`WindowProc`, and `WebWindow::SetFrameless`.

The Win32 calls the file makes are read from a record `Sys` of the platform's
answers, which stay the same for the duration of one call of a source function;
the calls that change the platform or call back into the host application are
recorded as a list of `Effect`s. `LONG` and `int` values are `Int`s, and every
`+` / `-` the code performs on them is wrapped to 32 bits by `wrapLong`.
`WebWindow::Invoke` blocks one thread on a condition variable until another has
handled `WM_USER_INVOKE`; the handler is part of `WindowProc` below, the
blocking wait has no sequential counterpart and is not embedded.
-/

namespace WebWindowNative

/-! ## Win32 scalar types and constants -/

abbrev HWND := Nat
abbrev HMONITOR := Nat
abbrev UINT := Nat
abbrev WPARAM := Nat
abbrev LPARAM := Int
abbrev LRESULT := Int
abbrev DWORD := Nat
abbrev HRESULT := Int

/-- The value a 32-bit two's-complement register holds after computing `z`. -/
def wrapLong (z : Int) : Int := (z + 2147483648) % 4294967296 - 2147483648

/-- The values a `LONG` (or `int`) can hold. -/
def InLong (z : Int) : Prop := -2147483648 ≤ z ∧ z < 2147483648

instance (z : Int) : Decidable (InLong z) := by unfold InLong; infer_instance

structure POINT where
  x : Int
  y : Int
deriving DecidableEq, Repr

structure RECT where
  left : Int
  top : Int
  right : Int
  bottom : Int
deriving DecidableEq, Repr

structure MONITORINFO where
  rcMonitor : RECT
  rcWork : RECT
  dwFlags : DWORD
deriving DecidableEq, Repr

structure MARGINS where
  cxLeftWidth : Int
  cxRightWidth : Int
  cyTopHeight : Int
  cyBottomHeight : Int
deriving DecidableEq, Repr

/-! Hit-test codes, `WinUser.h`. -/
def HTNOWHERE : LRESULT := 0
def HTCLIENT : LRESULT := 1
def HTCAPTION : LRESULT := 2
def HTLEFT : LRESULT := 10
def HTRIGHT : LRESULT := 11
def HTTOP : LRESULT := 12
def HTTOPLEFT : LRESULT := 13
def HTTOPRIGHT : LRESULT := 14
def HTBOTTOM : LRESULT := 15
def HTBOTTOMLEFT : LRESULT := 16
def HTBOTTOMRIGHT : LRESULT := 17

/-! System-metric indices, `WinUser.h`. -/
def SM_CXFRAME : Nat := 32
def SM_CYFRAME : Nat := 33
def SM_CXPADDEDBORDER : Nat := 92

/-- Constant `SW_MAXIMIZE`, `WinUser.h`. -/
def SW_MAXIMIZE : UINT := 3

/-- Constant `S_OK`, `winerror.h`. -/
def S_OK : HRESULT := 0

/-! Window messages, `WinUser.h`, and the two private ones of the file. -/
def WM_DESTROY : UINT := 0x0002
def WM_MOVE : UINT := 0x0003
def WM_SIZE : UINT := 0x0005
def WM_NCCALCSIZE : UINT := 0x0083
def WM_NCHITTEST : UINT := 0x0084
def WM_NCACTIVATE : UINT := 0x0086
def WM_USER : UINT := 0x0400
def WM_USER_SHOWMESSAGE : UINT := WM_USER + 0x0001
def WM_USER_INVOKE : UINT := WM_USER + 0x0002

/-! Window styles, `WinUser.h`. -/
def WS_OVERLAPPED : DWORD := 0x00000000
def WS_POPUP : DWORD := 0x80000000
def WS_CAPTION : DWORD := 0x00C00000
def WS_SYSMENU : DWORD := 0x00080000
def WS_THICKFRAME : DWORD := 0x00040000
def WS_MINIMIZEBOX : DWORD := 0x00020000
def WS_MAXIMIZEBOX : DWORD := 0x00010000
def WS_OVERLAPPEDWINDOW : DWORD :=
  WS_OVERLAPPED ||| WS_CAPTION ||| WS_SYSMENU ||| WS_THICKFRAME ||| WS_MINIMIZEBOX |||
    WS_MAXIMIZEBOX

/-! ## The platform -/

/-- What the platform answers to the queries the file makes. -/
structure Sys where
  /-- Call `GetSystemMetrics(nIndex)`. -/
  GetSystemMetrics : Nat → Int
  /-- Call `GetWindowRect(hwnd, &rect)`: `none` when the call fails. -/
  GetWindowRect : HWND → Option RECT
  /-- Call `GetWindowPlacement(hwnd, &placement)`: `placement.showCmd`, `none` when the call
  fails. -/
  GetWindowPlacement : HWND → Option UINT
  /-- Call `MonitorFromWindow(hwnd, MONITOR_DEFAULTTONULL)`: `0` is the null monitor. -/
  MonitorFromWindow : HWND → HMONITOR
  /-- Call `GetMonitorInfoW(monitor, &info)`: `none` when the call fails. -/
  GetMonitorInfoW : HMONITOR → Option MONITORINFO
  /-- Call `DwmIsCompositionEnabled(&enabled)`: the result code and the `BOOL` left in
  `enabled`, which the caller initialised to `FALSE`. -/
  DwmIsCompositionEnabled : HRESULT × Bool
  /-- Call `GetClientRect(hwnd, &rect)`: `none` when the call fails. -/
  GetClientRect : HWND → Option RECT
  /-- Call `GetWindowLongPtrW(hwnd, GWL_STYLE)`. -/
  GetWindowLongPtrW_STYLE : HWND → Int
  /-- Call `DefWindowProc(hwnd, uMsg, wParam, lParam)`. -/
  DefWindowProc : HWND → UINT → WPARAM → LPARAM → LRESULT

/-! ## Hit testing -/

/-- The conversion `bool → int` of the products in `hit_test`. -/
def boolToNat (b : Bool) : Nat := if b then 1 else 0

namespace region_mask
def client : Nat := 0b0000
def left : Nat := 0b0001
def right : Nat := 0b0010
def top : Nat := 0b0100
def bottom : Nat := 0b1000
end region_mask

/-- Source function `hit_test`. -/
def hit_test (sys : Sys) (handle : HWND) (cursor : POINT) (moveable resizable : Bool) :
    LRESULT :=
  let border : POINT :=
    { x := wrapLong (sys.GetSystemMetrics SM_CXFRAME + sys.GetSystemMetrics SM_CXPADDEDBORDER)
      y := wrapLong (sys.GetSystemMetrics SM_CYFRAME + sys.GetSystemMetrics SM_CXPADDEDBORDER) }
  match sys.GetWindowRect handle with
  | none => HTNOWHERE
  | some window =>
    let drag := if moveable then HTCAPTION else HTCLIENT
    let result : Nat :=
      region_mask.left * boolToNat (decide (cursor.x < wrapLong (window.left + border.x))) |||
      region_mask.right * boolToNat (decide (cursor.x ≥ wrapLong (window.right - border.x))) |||
      region_mask.top * boolToNat (decide (cursor.y < wrapLong (window.top + border.y))) |||
      region_mask.bottom * boolToNat (decide (cursor.y ≥ wrapLong (window.bottom - border.y)))
    if result = region_mask.left then (if resizable then HTLEFT else drag)
    else if result = region_mask.right then (if resizable then HTRIGHT else drag)
    else if result = region_mask.top then (if resizable then HTTOP else drag)
    else if result = region_mask.bottom then (if resizable then HTBOTTOM else drag)
    else if result = (region_mask.top ||| region_mask.left) then
      (if resizable then HTTOPLEFT else drag)
    else if result = (region_mask.top ||| region_mask.right) then
      (if resizable then HTTOPRIGHT else drag)
    else if result = (region_mask.bottom ||| region_mask.left) then
      (if resizable then HTBOTTOMLEFT else drag)
    else if result = (region_mask.bottom ||| region_mask.right) then
      (if resizable then HTBOTTOMRIGHT else drag)
    else if result = region_mask.client then drag
    else HTNOWHERE

/-! ## Maximized windows -/

/-- Source function `maximized`. -/
def maximized (sys : Sys) (hwnd : HWND) : Bool :=
  match sys.GetWindowPlacement hwnd with
  | none => false
  | some showCmd => showCmd == SW_MAXIMIZE

/-- Source function `adjust_maximized_client_rect`; the in/out parameter `rect` is the
argument and the result. -/
def adjust_maximized_client_rect (sys : Sys) (window : HWND) (rect : RECT) : RECT :=
  if !maximized sys window then rect
  else
    let monitor := sys.MonitorFromWindow window
    if monitor = 0 then rect
    else
      match sys.GetMonitorInfoW monitor with
      | none => rect
      | some monitor_info => monitor_info.rcWork

/-! ## Styles and the shadow -/

namespace Style
def windowed : DWORD :=
  WS_OVERLAPPEDWINDOW ||| WS_THICKFRAME ||| WS_CAPTION ||| WS_SYSMENU ||| WS_MINIMIZEBOX |||
    WS_MAXIMIZEBOX
def aero_borderless : DWORD :=
  WS_POPUP ||| WS_THICKFRAME ||| WS_CAPTION ||| WS_SYSMENU ||| WS_MAXIMIZEBOX ||| WS_MINIMIZEBOX
def basic_borderless : DWORD :=
  WS_POPUP ||| WS_THICKFRAME ||| WS_SYSMENU ||| WS_MAXIMIZEBOX ||| WS_MINIMIZEBOX
end Style

/-- Constant `SW_SHOW`, `WinUser.h`. -/
def SW_SHOW : Nat := 5

/-- The calls of the file that act on the platform or on the host application. -/
inductive Effect where
  | PostQuitMessage (nExitCode : Int)
  | MessageBox (hwnd : HWND) (params : WPARAM)
  | deleteParams (params : WPARAM)
  | callback (fn : WPARAM)
  | setCompleted (waitInfo : LPARAM)
  | notify_one (waitInfo : LPARAM)
  /-- The call `_webviewWindow->put_Bounds(bounds)`; `none` is the uninitialised `bounds` of a
  failed `GetClientRect`. -/
  | put_Bounds (hwnd : HWND) (bounds : Option RECT)
  | InvokeResized (hwnd : HWND) (width height : Int)
  | InvokeMoved (hwnd : HWND) (x y : Int)
  | DefWindowProc (hwnd : HWND) (uMsg : UINT) (wParam : WPARAM) (lParam : LPARAM)
  /-- The call `SetWindowLongPtrW(hwnd, GWL_STYLE, dwNewLong)`. -/
  | SetWindowLongPtrW_STYLE (hwnd : HWND) (dwNewLong : Int)
  | DwmExtendFrameIntoClientArea (hwnd : HWND) (margins : MARGINS)
  /-- The call `SetWindowPos(hwnd, nullptr, 0, 0, 0, 0, SWP_FRAMECHANGED | SWP_NOMOVE | SWP_NOSIZE)`. -/
  | SetWindowPos_FRAMECHANGED (hwnd : HWND)
  | ShowWindow (hwnd : HWND) (nCmdShow : Nat)
deriving DecidableEq, Repr

/-- Source function `composition_enabled`. -/
def composition_enabled (sys : Sys) : Bool :=
  let composition_enabled := sys.DwmIsCompositionEnabled.2
  let success := decide (sys.DwmIsCompositionEnabled.1 = S_OK)
  composition_enabled && success

/-- Source function `select_borderless_style`. -/
def select_borderless_style (sys : Sys) : DWORD :=
  if composition_enabled sys then Style.aero_borderless else Style.basic_borderless

/-- The table `shadow_state` of `set_shadow`, indexed by the `bool`. -/
def shadow_state (enabled : Bool) : MARGINS :=
  [(⟨0, 0, 0, 0⟩ : MARGINS), ⟨1, 1, 1, 1⟩].getD (boolToNat enabled) ⟨0, 0, 0, 0⟩

/-- Source function `set_shadow`. -/
def set_shadow (sys : Sys) (handle : HWND) (enabled : Bool) : List Effect :=
  if composition_enabled sys then
    [Effect.DwmExtendFrameIntoClientArea handle (shadow_state enabled)]
  else []

/-! ## The window object and the window map -/

/-- The members of the class `WebWindow` that the window procedure and `SetFrameless` read
or write. -/
structure WebWindow where
  _hWnd : HWND
  _frameless : Bool
  _moveable : Bool
  _resizable : Bool
  /-- Whether `_webviewWindow` is set. -/
  _webviewWindow : Bool
deriving DecidableEq, Repr

/-- The global `std::map<HWND, WebWindow*> hwndToWebWindow`; a null pointer is `none`. -/
abbrev HwndMap := List (HWND × Option WebWindow)

/-- Looking a key up in the map: `none` when the map has no entry for it. -/
def map_find (m : HwndMap) (k : HWND) : Option (Option WebWindow) := m.lookup k

/-- Method `std::map::erase(key)`. -/
def map_erase (m : HwndMap) (k : HWND) : HwndMap := m.filter (fun e => e.1 != k)

/-- Method `std::map::operator[]`: the value of the key, and the map, to which a missing key is
added with a null pointer. -/
def map_index (m : HwndMap) (k : HWND) : Option WebWindow × HwndMap :=
  match m.lookup k with
  | some v => (v, m)
  | none => (none, m ++ [(k, none)])

/-- The two globals of the file that the window procedure uses. -/
structure Globals where
  hwndToWebWindow : HwndMap
  messageLoopRootWindowHandle : HWND

/-- What a call of `WindowProc` leaves behind: the value returned, the window map, the
rectangle `rgrc[0]` of the `NCCALCSIZE_PARAMS`, the calls made. -/
structure ProcOutcome where
  result : LRESULT
  hwndToWebWindow : HwndMap
  rgrc0 : RECT
  effects : List Effect
deriving DecidableEq, Repr

/-- The conversion `(int)(short)` of a 16-bit word. -/
def toShort (w : Int) : Int := (w + 32768) % 65536 - 32768

/-- The macro `GET_X_LPARAM`, `Windowsx.h`: `(int)(short)LOWORD(lp)`. -/
def GET_X_LPARAM (lp : LPARAM) : Int := toShort (lp % 65536)

/-- The macro `GET_Y_LPARAM`, `Windowsx.h`: `(int)(short)HIWORD(lp)`. -/
def GET_Y_LPARAM (lp : LPARAM) : Int := toShort ((lp / 65536) % 65536)

/-- Source method `WebWindow::RefitContent`. -/
def RefitContent (sys : Sys) (self : WebWindow) : List Effect :=
  if self._webviewWindow then [Effect.put_Bounds self._hWnd (sys.GetClientRect self._hWnd)]
  else []

/-- The rectangle `GetSize` and `GetPosition` read: `rect = {}`, then `GetWindowRect`. -/
def windowRectOrZero (sys : Sys) (hwnd : HWND) : RECT :=
  match sys.GetWindowRect hwnd with
  | some rect => rect
  | none => ⟨0, 0, 0, 0⟩

/-- Source method `WebWindow::GetSize`. -/
def GetSize (sys : Sys) (self : WebWindow) : Int × Int :=
  let rect := windowRectOrZero sys self._hWnd
  (wrapLong (rect.right - rect.left), wrapLong (rect.bottom - rect.top))

/-- Source method `WebWindow::GetPosition`. -/
def GetPosition (sys : Sys) (self : WebWindow) : Int × Int :=
  let rect := windowRectOrZero sys self._hWnd
  (rect.left, rect.top)

/-- Source function `WindowProc`. The argument `rgrc0` is the rectangle `rgrc[0]` that
`lParam` points to when the message is `WM_NCCALCSIZE`. -/
def WindowProc (sys : Sys) (g : Globals) (rgrc0 : RECT) (hwnd : HWND) (uMsg : UINT)
    (wParam : WPARAM) (lParam : LPARAM) : ProcOutcome :=
  if uMsg = WM_DESTROY then
    { result := 0
      hwndToWebWindow := map_erase g.hwndToWebWindow hwnd
      rgrc0 := rgrc0
      effects :=
        if hwnd = g.messageLoopRootWindowHandle then [Effect.PostQuitMessage 0] else [] }
  else if uMsg = WM_USER_SHOWMESSAGE then
    { result := 0
      hwndToWebWindow := g.hwndToWebWindow
      rgrc0 := rgrc0
      effects := [Effect.MessageBox hwnd wParam, Effect.deleteParams wParam] }
  else if uMsg = WM_USER_INVOKE then
    { result := 0
      hwndToWebWindow := g.hwndToWebWindow
      rgrc0 := rgrc0
      effects := [Effect.callback wParam, Effect.setCompleted lParam, Effect.notify_one lParam] }
  else if uMsg = WM_SIZE then
    let (webWindow, m) := map_index g.hwndToWebWindow hwnd
    { result := 0
      hwndToWebWindow := m
      rgrc0 := rgrc0
      effects :=
        match webWindow with
        | some webWindow =>
          RefitContent sys webWindow ++
            [Effect.InvokeResized webWindow._hWnd (GetSize sys webWindow).1
              (GetSize sys webWindow).2]
        | none => [] }
  else if uMsg = WM_MOVE then
    let (webWindow, m) := map_index g.hwndToWebWindow hwnd
    { result := 0
      hwndToWebWindow := m
      rgrc0 := rgrc0
      effects :=
        match webWindow with
        | some webWindow =>
          [Effect.InvokeMoved webWindow._hWnd (GetPosition sys webWindow).1
            (GetPosition sys webWindow).2]
        | none => [] }
  else if uMsg = WM_NCCALCSIZE then
    let (webWindow, m) := map_index g.hwndToWebWindow hwnd
    match webWindow with
    | some webWindow =>
      if wParam = 1 ∧ webWindow._frameless = true then
        { result := 0
          hwndToWebWindow := m
          rgrc0 := adjust_maximized_client_rect sys hwnd rgrc0
          effects := [] }
      else { result := 0, hwndToWebWindow := m, rgrc0 := rgrc0, effects := [] }
    | none => { result := 0, hwndToWebWindow := m, rgrc0 := rgrc0, effects := [] }
  else if uMsg = WM_NCHITTEST then
    let (webWindow, m) := map_index g.hwndToWebWindow hwnd
    match webWindow with
    | some webWindow =>
      if webWindow._frameless then
        { result :=
            hit_test sys hwnd ⟨GET_X_LPARAM lParam, GET_Y_LPARAM lParam⟩ webWindow._moveable
              webWindow._resizable
          hwndToWebWindow := m
          rgrc0 := rgrc0
          effects := [] }
      else { result := 0, hwndToWebWindow := m, rgrc0 := rgrc0, effects := [] }
    | none => { result := 0, hwndToWebWindow := m, rgrc0 := rgrc0, effects := [] }
  else if uMsg = WM_NCACTIVATE then
    if !composition_enabled sys then
      { result := 1, hwndToWebWindow := g.hwndToWebWindow, rgrc0 := rgrc0, effects := [] }
    else { result := 0, hwndToWebWindow := g.hwndToWebWindow, rgrc0 := rgrc0, effects := [] }
  else
    { result := sys.DefWindowProc hwnd uMsg wParam lParam
      hwndToWebWindow := g.hwndToWebWindow
      rgrc0 := rgrc0
      effects := [Effect.DefWindowProc hwnd uMsg wParam lParam] }

/-! ## Switching the frame -/

/-- The conversion `static_cast<Style>` of the `LONG_PTR` that `GetWindowLongPtrW` returns:
its low 32 bits. -/
def toStyle (v : Int) : DWORD := (v % 4294967296).toNat

/-- Source method `WebWindow::SetFrameless`: the object after the call and the calls made. -/
def SetFrameless (sys : Sys) (self : WebWindow) (frameless : Bool) :
    WebWindow × List Effect :=
  let new_style : DWORD := if frameless then select_borderless_style sys else Style.windowed
  let old_style : DWORD := toStyle (sys.GetWindowLongPtrW_STYLE self._hWnd)
  if new_style ≠ old_style then
    ({ self with _frameless := frameless },
      [Effect.SetWindowLongPtrW_STYLE self._hWnd (wrapLong (new_style : Int))] ++
        set_shadow sys self._hWnd (new_style != Style.windowed) ++
        [Effect.SetWindowPos_FRAMECHANGED self._hWnd, Effect.ShowWindow self._hWnd SW_SHOW])
  else (self, [])

/-! ## Reading the calls made -/

/-- The styles that the calls `SetWindowLongPtrW(hwnd, GWL_STYLE, _)` among `effects` give the
window `hwnd`, in order: a window style is the low 32 bits of the value passed. -/
def stylesStored (hwnd : HWND) (effects : List Effect) : List DWORD :=
  effects.filterMap fun e =>
    match e with
    | Effect.SetWindowLongPtrW_STYLE h v => if h = hwnd then some (toStyle v) else none
    | _ => none

/-- The margins that the calls `DwmExtendFrameIntoClientArea(hwnd, _)` among `effects` set, in
order. -/
def marginsSet (hwnd : HWND) (effects : List Effect) : List MARGINS :=
  effects.filterMap fun e =>
    match e with
    | Effect.DwmExtendFrameIntoClientArea h m => if h = hwnd then some m else none
    | _ => none

/-- The quit messages posted among `effects`, in order. -/
def quitsPosted (effects : List Effect) : List Int :=
  effects.filterMap fun e =>
    match e with
    | Effect.PostQuitMessage c => some c
    | _ => none

/-! ## Example inputs -/

/-- A platform for the examples: borders of 4 + 4 pixels, one window, handle 1, at
(100, 100)-(900, 700), maximized on monitor 7, composition enabled. -/
def demoSys : Sys where
  GetSystemMetrics := fun n =>
    if n = SM_CXFRAME then 4 else if n = SM_CYFRAME then 4
    else if n = SM_CXPADDEDBORDER then 4 else 0
  GetWindowRect := fun h => if h = 1 then some ⟨100, 100, 900, 700⟩ else none
  GetWindowPlacement := fun h => if h = 1 then some SW_MAXIMIZE else none
  MonitorFromWindow := fun h => if h = 1 then 7 else 0
  GetMonitorInfoW := fun m =>
    if m = 7 then some ⟨⟨0, 0, 1920, 1080⟩, ⟨0, 0, 1920, 1040⟩, 1⟩ else none
  DwmIsCompositionEnabled := (S_OK, true)
  GetClientRect := fun h => if h = 1 then some ⟨0, 0, 800, 600⟩ else none
  GetWindowLongPtrW_STYLE := fun _ => 0x16CF0000
  DefWindowProc := fun _ uMsg _ _ => if uMsg = WM_NCHITTEST then HTCAPTION else 0

/-- A window object for the examples: handle 1, not frameless, moveable, resizable. -/
def demoWindow : WebWindow := ⟨1, false, true, true, true⟩

/-- Globals for the examples: windows 1 and 2 registered, window 1 runs the message loop. -/
def demoGlobals : Globals :=
  ⟨[(1, some demoWindow), (2, some { demoWindow with _hWnd := 2, _frameless := true })], 1⟩

/-! ## Theorems -/

theorem wrapLong_of_inLong (z : Int) (h : InLong z) : wrapLong z = z := by
  unfold InLong at h
  unfold wrapLong
  omega

theorem hit_test_eq (sys : Sys) (handle : HWND) (cursor : POINT) (moveable : Bool)
    (w : RECT) (h : sys.GetWindowRect handle = some w) (bx byy : Int)
    (hbx : wrapLong (sys.GetSystemMetrics SM_CXFRAME + sys.GetSystemMetrics SM_CXPADDEDBORDER)
      = bx)
    (hby : wrapLong (sys.GetSystemMetrics SM_CYFRAME + sys.GetSystemMetrics SM_CXPADDEDBORDER)
      = byy)
    (h1 : wrapLong (w.left + bx) = w.left + bx)
    (h2 : wrapLong (w.right - bx) = w.right - bx)
    (h3 : wrapLong (w.top + byy) = w.top + byy)
    (h4 : wrapLong (w.bottom - byy) = w.bottom - byy)
    (hLR : w.left + bx ≤ w.right - bx) (hTB : w.top + byy ≤ w.bottom - byy) :
    hit_test sys handle cursor moveable true =
      if cursor.y < w.top + byy ∧ cursor.x < w.left + bx then HTTOPLEFT
      else if cursor.y < w.top + byy ∧ cursor.x ≥ w.right - bx then HTTOPRIGHT
      else if cursor.y ≥ w.bottom - byy ∧ cursor.x < w.left + bx then HTBOTTOMLEFT
      else if cursor.y ≥ w.bottom - byy ∧ cursor.x ≥ w.right - bx then HTBOTTOMRIGHT
      else if cursor.x < w.left + bx then HTLEFT
      else if cursor.x ≥ w.right - bx then HTRIGHT
      else if cursor.y < w.top + byy then HTTOP
      else if cursor.y ≥ w.bottom - byy then HTBOTTOM
      else if moveable then HTCAPTION else HTCLIENT := by
  unfold hit_test
  simp only [h, hbx, hby, h1, h2, h3, h4]
  by_cases hL : cursor.x < w.left + bx <;> by_cases hR : cursor.x ≥ w.right - bx <;>
    by_cases hT : cursor.y < w.top + byy <;> by_cases hB : cursor.y ≥ w.bottom - byy <;>
    first
      | (exfalso; omega)
      | (simp [hL, hR, hT, hB, boolToNat, region_mask.left, region_mask.right, region_mask.top,
          region_mask.bottom, region_mask.client])

/-- C1. For a resizable window whose rectangle is retrieved and is at least two borders
wide and high, `hit_test` returns the corner code where two border strips meet, else the
code of the one strip the cursor is in, else `HTCAPTION` or `HTCLIENT` by `moveable`.
Here `bx`, `byy` are the sums of the metrics, the rectangle holds `LONG` values and the
border thicknesses are not negative. -/
theorem hit_test_resizable (sys : Sys) (handle : HWND) (w : RECT) (x y : Int)
    (moveable : Bool) (bx byy : Int)
    (hbx : bx = sys.GetSystemMetrics SM_CXFRAME + sys.GetSystemMetrics SM_CXPADDEDBORDER)
    (hby : byy = sys.GetSystemMetrics SM_CYFRAME + sys.GetSystemMetrics SM_CXPADDEDBORDER)
    (hrect : sys.GetWindowRect handle = some w)
    (hleft : InLong w.left) (htop : InLong w.top)
    (hright : InLong w.right) (hbottom : InLong w.bottom)
    (hbx0 : 0 ≤ bx) (hby0 : 0 ≤ byy)
    (hwide : w.right - w.left ≥ 2 * bx) (hhigh : w.bottom - w.top ≥ 2 * byy) :
    hit_test sys handle ⟨x, y⟩ moveable true =
      if y < w.top + byy ∧ x < w.left + bx then HTTOPLEFT
      else if y < w.top + byy ∧ x ≥ w.right - bx then HTTOPRIGHT
      else if y ≥ w.bottom - byy ∧ x < w.left + bx then HTBOTTOMLEFT
      else if y ≥ w.bottom - byy ∧ x ≥ w.right - bx then HTBOTTOMRIGHT
      else if x < w.left + bx then HTLEFT
      else if x ≥ w.right - bx then HTRIGHT
      else if y < w.top + byy then HTTOP
      else if y ≥ w.bottom - byy then HTBOTTOM
      else if moveable then HTCAPTION else HTCLIENT := by
  unfold InLong at hleft htop hright hbottom
  have e1 : wrapLong (sys.GetSystemMetrics SM_CXFRAME + sys.GetSystemMetrics SM_CXPADDEDBORDER)
      = bx := by
    rw [← hbx]; exact wrapLong_of_inLong bx ⟨by omega, by omega⟩
  have e2 : wrapLong (sys.GetSystemMetrics SM_CYFRAME + sys.GetSystemMetrics SM_CXPADDEDBORDER)
      = byy := by
    rw [← hby]; exact wrapLong_of_inLong byy ⟨by omega, by omega⟩
  exact hit_test_eq sys handle ⟨x, y⟩ moveable w hrect bx byy e1 e2
    (wrapLong_of_inLong _ ⟨by omega, by omega⟩) (wrapLong_of_inLong _ ⟨by omega, by omega⟩)
    (wrapLong_of_inLong _ ⟨by omega, by omega⟩) (wrapLong_of_inLong _ ⟨by omega, by omega⟩)
    (by omega) (by omega)

/-- C1, at the window of `demoSys` with the cursor at (103, 698): the bottom-left corner. -/
theorem hit_test_resizable_witness :
    hit_test demoSys 1 ⟨103, 698⟩ false true = HTBOTTOMLEFT :=
  (hit_test_resizable demoSys 1 ⟨100, 100, 900, 700⟩ 103 698 false 8 8 (by decide)
    (by decide) rfl (by decide) (by decide) (by decide) (by decide) (by decide) (by decide)
    (by decide) (by decide)).trans (by decide)

/-- The `switch` of `hit_test` for a window that is not resizable. -/
theorem switch_not_resizable (result : Nat) (drag : LRESULT) :
    (if result = region_mask.left then (if false = true then HTLEFT else drag)
    else if result = region_mask.right then (if false = true then HTRIGHT else drag)
    else if result = region_mask.top then (if false = true then HTTOP else drag)
    else if result = region_mask.bottom then (if false = true then HTBOTTOM else drag)
    else if result = (region_mask.top ||| region_mask.left) then
      (if false = true then HTTOPLEFT else drag)
    else if result = (region_mask.top ||| region_mask.right) then
      (if false = true then HTTOPRIGHT else drag)
    else if result = (region_mask.bottom ||| region_mask.left) then
      (if false = true then HTBOTTOMLEFT else drag)
    else if result = (region_mask.bottom ||| region_mask.right) then
      (if false = true then HTBOTTOMRIGHT else drag)
    else if result = region_mask.client then drag
    else HTNOWHERE) = HTNOWHERE ∨
    (if result = region_mask.left then (if false = true then HTLEFT else drag)
    else if result = region_mask.right then (if false = true then HTRIGHT else drag)
    else if result = region_mask.top then (if false = true then HTTOP else drag)
    else if result = region_mask.bottom then (if false = true then HTBOTTOM else drag)
    else if result = (region_mask.top ||| region_mask.left) then
      (if false = true then HTTOPLEFT else drag)
    else if result = (region_mask.top ||| region_mask.right) then
      (if false = true then HTTOPRIGHT else drag)
    else if result = (region_mask.bottom ||| region_mask.left) then
      (if false = true then HTBOTTOMLEFT else drag)
    else if result = (region_mask.bottom ||| region_mask.right) then
      (if false = true then HTBOTTOMRIGHT else drag)
    else if result = region_mask.client then drag
    else HTNOWHERE) = drag := by
  simp only [Bool.false_eq_true, if_false]
  split_ifs <;> first | exact Or.inr rfl | exact Or.inl rfl

theorem hit_test_not_resizable_cases (sys : Sys) (handle : HWND) (cursor : POINT)
    (moveable : Bool) :
    hit_test sys handle cursor moveable false = HTNOWHERE ∨
      hit_test sys handle cursor moveable false = (if moveable then HTCAPTION else HTCLIENT) := by
  unfold hit_test
  cases sys.GetWindowRect handle with
  | none => exact Or.inl rfl
  | some window => exact switch_not_resizable _ _

/-- C2. With `resizable` false, `hit_test` returns none of the eight resize codes: its
result is `HTNOWHERE`, or `HTCAPTION` for a moveable window, or `HTCLIENT` for one that is
not; so a window neither moveable nor resizable never yields `HTCAPTION`. -/
theorem hit_test_not_resizable (sys : Sys) (handle : HWND) (cursor : POINT) (moveable : Bool) :
    (hit_test sys handle cursor moveable false = HTNOWHERE ∨
      (moveable = true ∧ hit_test sys handle cursor moveable false = HTCAPTION) ∨
      (moveable = false ∧ hit_test sys handle cursor moveable false = HTCLIENT)) ∧
    hit_test sys handle cursor moveable false ∉
      [HTLEFT, HTRIGHT, HTTOP, HTBOTTOM, HTTOPLEFT, HTTOPRIGHT, HTBOTTOMLEFT, HTBOTTOMRIGHT] ∧
    (moveable = false → hit_test sys handle cursor moveable false ≠ HTCAPTION) := by
  have h := hit_test_not_resizable_cases sys handle cursor moveable
  cases moveable <;> rcases h with h | h <;> rw [h] <;>
    simp [HTNOWHERE, HTCLIENT, HTCAPTION, HTLEFT, HTRIGHT, HTTOP, HTBOTTOM, HTTOPLEFT,
      HTTOPRIGHT, HTBOTTOMLEFT, HTBOTTOMRIGHT]

/-- C2, at the left border of the window of `demoSys`: not moveable, so `HTCLIENT`. -/
theorem hit_test_not_resizable_witness :
    hit_test demoSys 1 ⟨103, 400⟩ false false = HTCLIENT ∧
      hit_test demoSys 1 ⟨103, 400⟩ false false ≠ HTCAPTION :=
  ⟨by decide, (hit_test_not_resizable demoSys 1 ⟨103, 400⟩ false).2.2 rfl⟩

/-! ### The window map -/

theorem lookup_cons_eq (h a : HWND) (b : Option WebWindow) (es : HwndMap) :
    List.lookup h ((a, b) :: es) = if h = a then some b else List.lookup h es := by
  by_cases hha : h = a
  · subst hha
    simp [List.lookup]
  · have hb : (h == a) = false := by simpa using hha
    simp [List.lookup, hb, hha]

theorem map_erase_cons (a : HWND) (b : Option WebWindow) (es : HwndMap) (k : HWND) :
    map_erase ((a, b) :: es) k = if a = k then map_erase es k else (a, b) :: map_erase es k := by
  unfold map_erase
  rw [List.filter_cons]
  by_cases hak : a = k <;> simp [hak]

theorem map_find_erase_self (m : HwndMap) (k : HWND) : map_find (map_erase m k) k = none := by
  induction m with
  | nil => rfl
  | cons e es ih =>
    obtain ⟨a, b⟩ := e
    rw [map_erase_cons]
    by_cases h : a = k
    · rw [if_pos h]; exact ih
    · rw [if_neg h]
      unfold map_find at ih ⊢
      rw [lookup_cons_eq, if_neg (fun hka => h hka.symm)]
      exact ih

theorem map_find_erase_other (m : HwndMap) (k h : HWND) (hne : h ≠ k) :
    map_find (map_erase m k) h = map_find m h := by
  induction m with
  | nil => rfl
  | cons e es ih =>
    obtain ⟨a, b⟩ := e
    rw [map_erase_cons]
    unfold map_find at ih ⊢
    by_cases hak : a = k
    · rw [if_pos hak, lookup_cons_eq, if_neg (fun hha => hne (hha.trans hak))]
      exact ih
    · rw [if_neg hak, lookup_cons_eq, lookup_cons_eq, ih]

theorem mem_map_erase (m : HwndMap) (k : HWND) (e : HWND × Option WebWindow) :
    e ∈ map_erase m k ↔ e ∈ m ∧ e.1 ≠ k := by
  simp [map_erase]

/-- C6. Handling `WM_DESTROY` returns 0, posts the quit message exactly when the window is
the one that started the message loop, removes the entry of the window from
`hwndToWebWindow` and keeps every other entry. -/
theorem WindowProc_WM_DESTROY (sys : Sys) (g : Globals) (rgrc0 : RECT) (hwnd : HWND)
    (wParam : WPARAM) (lParam : LPARAM) :
    (WindowProc sys g rgrc0 hwnd WM_DESTROY wParam lParam).result = 0 ∧
    (quitsPosted (WindowProc sys g rgrc0 hwnd WM_DESTROY wParam lParam).effects ≠ [] ↔
      hwnd = g.messageLoopRootWindowHandle) ∧
    map_find (WindowProc sys g rgrc0 hwnd WM_DESTROY wParam lParam).hwndToWebWindow hwnd
      = none ∧
    (∀ h, h ≠ hwnd →
      map_find (WindowProc sys g rgrc0 hwnd WM_DESTROY wParam lParam).hwndToWebWindow h
        = map_find g.hwndToWebWindow h) ∧
    (∀ e, e ∈ (WindowProc sys g rgrc0 hwnd WM_DESTROY wParam lParam).hwndToWebWindow ↔
      e ∈ g.hwndToWebWindow ∧ e.1 ≠ hwnd) := by
  have hw : WindowProc sys g rgrc0 hwnd WM_DESTROY wParam lParam =
      { result := 0
        hwndToWebWindow := map_erase g.hwndToWebWindow hwnd
        rgrc0 := rgrc0
        effects :=
          if hwnd = g.messageLoopRootWindowHandle then [Effect.PostQuitMessage 0] else [] } := by
    simp [WindowProc]
  rw [hw]
  refine ⟨rfl, ?_, map_find_erase_self _ _, fun h hne => map_find_erase_other _ _ h hne,
    fun e => mem_map_erase _ _ e⟩
  by_cases hroot : hwnd = g.messageLoopRootWindowHandle <;> simp [hroot, quitsPosted]

/-- C6, on `demoGlobals`: destroying window 2 posts nothing and keeps window 1, destroying
window 1 posts the quit message. -/
theorem WindowProc_WM_DESTROY_witness :
    quitsPosted (WindowProc demoSys demoGlobals ⟨0, 0, 0, 0⟩ 2 WM_DESTROY 0 0).effects = [] ∧
    quitsPosted (WindowProc demoSys demoGlobals ⟨0, 0, 0, 0⟩ 1 WM_DESTROY 0 0).effects = [0] ∧
    map_find (WindowProc demoSys demoGlobals ⟨0, 0, 0, 0⟩ 2 WM_DESTROY 0 0).hwndToWebWindow 1
      = some (some demoWindow) :=
  ⟨by decide, by decide,
    ((WindowProc_WM_DESTROY demoSys demoGlobals ⟨0, 0, 0, 0⟩ 2 0 0).2.2.2.1 1
      (by decide)).trans (by decide)⟩

/-! ### Maximized windows -/

/-- C4. `adjust_maximized_client_rect` leaves `rect` as passed when the window is not
maximized (the placement cannot be read, or its `showCmd` is not `SW_MAXIMIZE`), when the
window has no monitor, and when the monitor information cannot be read; for a maximized
window whose monitor information is read, `rect` becomes the work rectangle of the
monitor. -/
theorem adjust_maximized_client_rect_spec (sys : Sys) (window : HWND) (rect : RECT) :
    (maximized sys window = false ↔
      (sys.GetWindowPlacement window = none ∨
        ∃ showCmd, sys.GetWindowPlacement window = some showCmd ∧ showCmd ≠ SW_MAXIMIZE)) ∧
    (maximized sys window = false → adjust_maximized_client_rect sys window rect = rect) ∧
    (sys.MonitorFromWindow window = 0 → adjust_maximized_client_rect sys window rect = rect) ∧
    (sys.GetMonitorInfoW (sys.MonitorFromWindow window) = none →
      adjust_maximized_client_rect sys window rect = rect) ∧
    (∀ info, maximized sys window = true → sys.MonitorFromWindow window ≠ 0 →
      sys.GetMonitorInfoW (sys.MonitorFromWindow window) = some info →
      adjust_maximized_client_rect sys window rect = info.rcWork) := by
  refine ⟨?_, ?_, ?_, ?_, ?_⟩
  · unfold maximized
    cases hp : sys.GetWindowPlacement window with
    | none => simp
    | some showCmd => simp
  · intro h
    simp [adjust_maximized_client_rect, h]
  · intro h
    simp [adjust_maximized_client_rect, h]
  · intro h
    unfold adjust_maximized_client_rect
    simp only [h]
    split_ifs <;> rfl
  · intro info hmax hmon hinfo
    simp [adjust_maximized_client_rect, hmax, hmon, hinfo]

/-- C4, on `demoSys`: window 1 is maximized on monitor 7 and gets its work rectangle;
window 2 has no placement and keeps the rectangle passed. -/
theorem adjust_maximized_client_rect_witness :
    adjust_maximized_client_rect demoSys 1 ⟨-8, -8, 1928, 1088⟩ = ⟨0, 0, 1920, 1040⟩ ∧
    adjust_maximized_client_rect demoSys 2 ⟨-8, -8, 1928, 1088⟩ = ⟨-8, -8, 1928, 1088⟩ :=
  ⟨(adjust_maximized_client_rect_spec demoSys 1 ⟨-8, -8, 1928, 1088⟩).2.2.2.2
      ⟨⟨0, 0, 1920, 1080⟩, ⟨0, 0, 1920, 1040⟩, 1⟩ (by decide) (by decide) (by decide),
    (adjust_maximized_client_rect_spec demoSys 2 ⟨-8, -8, 1928, 1088⟩).2.1 (by decide)⟩

/-! ### The hit test of the window procedure -/

/-- For a registered frameless window, `WM_NCHITTEST` is answered by `hit_test` at the
point packed in `lParam`. -/
theorem WindowProc_NCHITTEST_frameless (sys : Sys) (g : Globals) (rgrc0 : RECT) (hwnd : HWND)
    (wParam : WPARAM) (lParam : LPARAM) (w : WebWindow)
    (hreg : map_find g.hwndToWebWindow hwnd = some (some w)) (hf : w._frameless = true) :
    (WindowProc sys g rgrc0 hwnd WM_NCHITTEST wParam lParam).result =
      hit_test sys hwnd ⟨GET_X_LPARAM lParam, GET_Y_LPARAM lParam⟩ w._moveable w._resizable := by
  unfold map_find at hreg
  simp [WindowProc, WM_NCHITTEST, WM_DESTROY, WM_USER_SHOWMESSAGE, WM_USER_INVOKE, WM_USER,
    WM_SIZE, WM_MOVE, WM_NCCALCSIZE, map_index, hreg, hf]

/-- For a window that is not frameless, or has no object registered, `WM_NCHITTEST` is
answered with 0 and `DefWindowProc` is not called. -/
theorem WindowProc_NCHITTEST_not_frameless (sys : Sys) (g : Globals) (rgrc0 : RECT)
    (hwnd : HWND) (wParam : WPARAM) (lParam : LPARAM)
    (h : ∀ w, map_find g.hwndToWebWindow hwnd = some (some w) → w._frameless = false) :
    (WindowProc sys g rgrc0 hwnd WM_NCHITTEST wParam lParam).result = 0 ∧
      (WindowProc sys g rgrc0 hwnd WM_NCHITTEST wParam lParam).effects = [] := by
  unfold map_find at h
  cases hl : List.lookup hwnd g.hwndToWebWindow with
  | none =>
    simp [WindowProc, WM_NCHITTEST, WM_DESTROY, WM_USER_SHOWMESSAGE, WM_USER_INVOKE, WM_USER,
      WM_SIZE, WM_MOVE, WM_NCCALCSIZE, map_index, hl]
  | some v =>
    cases v with
    | none =>
      simp [WindowProc, WM_NCHITTEST, WM_DESTROY, WM_USER_SHOWMESSAGE, WM_USER_INVOKE, WM_USER,
        WM_SIZE, WM_MOVE, WM_NCCALCSIZE, map_index, hl]
    | some w =>
      have hf := h w hl
      simp [WindowProc, WM_NCHITTEST, WM_DESTROY, WM_USER_SHOWMESSAGE, WM_USER_INVOKE, WM_USER,
        WM_SIZE, WM_MOVE, WM_NCCALCSIZE, map_index, hl, hf]

/-- C3, the code at a framed window. Window 1 of `demoGlobals` is registered and not
frameless; for a `WM_NCHITTEST` at (500, 105) `DefWindowProc` would answer `HTCAPTION`,
and `WindowProc` answers `HTNOWHERE` without calling it. -/
theorem WindowProc_NCHITTEST_framed_window :
    demoSys.DefWindowProc 1 WM_NCHITTEST 0 6881780 = HTCAPTION ∧
    (GET_X_LPARAM 6881780, GET_Y_LPARAM 6881780) = (500, 105) ∧
    map_find demoGlobals.hwndToWebWindow 1 = some (some demoWindow) ∧
    demoWindow._frameless = false ∧
    (WindowProc demoSys demoGlobals ⟨0, 0, 0, 0⟩ 1 WM_NCHITTEST 0 6881780).result
      = HTNOWHERE ∧
    (WindowProc demoSys demoGlobals ⟨0, 0, 0, 0⟩ 1 WM_NCHITTEST 0 6881780).effects = [] := by
  refine ⟨by decide, by decide, by decide, by decide, ?_, ?_⟩
  · exact (WindowProc_NCHITTEST_not_frameless demoSys demoGlobals ⟨0, 0, 0, 0⟩ 1 0 6881780
      (by intro w hw; cases hw; rfl)).1
  · exact (WindowProc_NCHITTEST_not_frameless demoSys demoGlobals ⟨0, 0, 0, 0⟩ 1 0 6881780
      (by intro w hw; cases hw; rfl)).2

/-! ### Switching the frame -/

theorem toStyle_wrapLong_styles :
    toStyle (wrapLong (Style.windowed : Int)) = Style.windowed ∧
    toStyle (wrapLong (Style.aero_borderless : Int)) = Style.aero_borderless ∧
    toStyle (wrapLong (Style.basic_borderless : Int)) = Style.basic_borderless := by
  decide

theorem borderless_ne_windowed :
    (Style.aero_borderless != Style.windowed) = true ∧
      (Style.basic_borderless != Style.windowed) = true ∧
      (Style.windowed != Style.windowed) = false := by
  decide

/-- The calls `SetFrameless` makes when the current style differs from the target. -/
theorem SetFrameless_effects (sys : Sys) (self : WebWindow) (f : Bool)
    (hdiff : toStyle (sys.GetWindowLongPtrW_STYLE self._hWnd) ≠
      (if f then (if composition_enabled sys then Style.aero_borderless
        else Style.basic_borderless) else Style.windowed)) :
    (SetFrameless sys self f).2 =
      Effect.SetWindowLongPtrW_STYLE self._hWnd
          (wrapLong ((if f then (if composition_enabled sys then Style.aero_borderless
            else Style.basic_borderless) else Style.windowed : DWORD) : Int)) ::
        (set_shadow sys self._hWnd f ++
          [Effect.SetWindowPos_FRAMECHANGED self._hWnd, Effect.ShowWindow self._hWnd SW_SHOW]) := by
  obtain ⟨hna, hnb, hww⟩ := borderless_ne_windowed
  unfold SetFrameless select_borderless_style
  simp only []
  rw [if_pos (Ne.symm hdiff)]
  cases f <;> cases hc : composition_enabled sys <;> simp [hna, hnb, hww]

/-- C7. When the current style of the window differs from the target, `SetFrameless f` stores
`Style::windowed` for `f` false, `Style::aero_borderless` for `f` true with composition
enabled and `Style::basic_borderless` for `f` true with composition disabled; with
composition enabled it sets the margins once, to {1,1,1,1} exactly when `f` is true and to
{0,0,0,0} exactly when `f` is false, and with composition disabled it sets no margins. -/
theorem SetFrameless_style_and_shadow (sys : Sys) (self : WebWindow) (f : Bool)
    (hdiff : toStyle (sys.GetWindowLongPtrW_STYLE self._hWnd) ≠
      (if f then (if composition_enabled sys then Style.aero_borderless
        else Style.basic_borderless) else Style.windowed)) :
    (f = false → stylesStored self._hWnd (SetFrameless sys self f).2 = [Style.windowed]) ∧
    (f = true → composition_enabled sys = true →
      stylesStored self._hWnd (SetFrameless sys self f).2 = [Style.aero_borderless]) ∧
    (f = true → composition_enabled sys = false →
      stylesStored self._hWnd (SetFrameless sys self f).2 = [Style.basic_borderless]) ∧
    (composition_enabled sys = true →
      ((⟨1, 1, 1, 1⟩ : MARGINS) ∈ marginsSet self._hWnd (SetFrameless sys self f).2 ↔
        f = true) ∧
      ((⟨0, 0, 0, 0⟩ : MARGINS) ∈ marginsSet self._hWnd (SetFrameless sys self f).2 ↔
        f = false) ∧
      (marginsSet self._hWnd (SetFrameless sys self f).2).length = 1) ∧
    (composition_enabled sys = false →
      marginsSet self._hWnd (SetFrameless sys self f).2 = []) := by
  obtain ⟨hw, ha, hb⟩ := toStyle_wrapLong_styles
  rw [SetFrameless_effects sys self f hdiff]
  cases f <;> cases hc : composition_enabled sys <;>
    simp [set_shadow, stylesStored, marginsSet, shadow_state, boolToNat, hc, hw, ha, hb]

/-- C7, on `demoSys` (composition enabled, current style an overlapped visible window):
going frameless stores `Style::aero_borderless` and sets the margins {1,1,1,1}. -/
theorem SetFrameless_style_and_shadow_witness :
    stylesStored 1 (SetFrameless demoSys demoWindow true).2 = [Style.aero_borderless] ∧
    marginsSet 1 (SetFrameless demoSys demoWindow true).2 = [⟨1, 1, 1, 1⟩] :=
  ⟨(SetFrameless_style_and_shadow demoSys demoWindow true (by decide)).2.1 rfl (by decide),
    by decide⟩

end WebWindowNative
